import Mathlib

/-!
Verification of the campaign dispatch and reconciliation state machine of
wagtail-birdsong (file `birdsong/backends/mailersend.py`, configuration in
`birdsong/conf.py`).  The Python source is shallowly embedded below:
pure helpers become Lean functions, the provider is an abstract behaviour,
raised exceptions become `Except`, and the database writes performed under
Django transactions become explicit lists of atomically committed batches
of primitive operations.
-/

set_option maxRecDepth 4000

/-- Modelled from the spec: the `CampaignStatus` enum of `birdsong.models`
(the models module is not part of the sources under inspection; spec section
4.4 lists the states UNSENT, SENDING, SENT, FAILED). -/
inductive CampaignStatus where
  | UNSENT
  | SENDING
  | SENT
  | FAILED
deriving DecidableEq, Repr

/-- Modelled from the spec: a `Contact` row (identity and email address,
spec section 3); contacts are supplied to the dispatch as an ordered
sequence. -/
structure Contact where
  id : Nat
  email : String
deriving DecidableEq, Repr

/-- Modelled from the spec: a `Receipt` row `(campaign_id, contact_id,
success)` as bulk-inserted by `seal_campaign` (spec sections 3 and 6).
The Python code stores `0`/`1`, coerced by the boolean model field. -/
structure Receipt where
  campaign_id : Nat
  contact_id : Nat
  success : Bool
deriving DecidableEq, Repr

/-- JSON values as produced by `json.loads`.  Numbers keep their source
literal (Python converts to `int`/`float`; no claim below inspects a
numeric payload value, so the literal is retained verbatim). -/
inductive Json where
  | null
  | bool (b : Bool)
  | num (lit : String)
  | str (s : String)
  | arr (xs : List Json)
  | obj (fields : List (String × Json))
deriving Repr

/-- The character U+007B, an opening curly bracket. -/
def lbraceC : Char := Char.ofNat 123

/-- The character U+007D, a closing curly bracket. -/
def rbraceC : Char := Char.ofNat 125

/-- Whitespace accepted between JSON tokens by `json.loads`
(space, tab, newline, carriage return). -/
def isJsonWs (c : Char) : Bool :=
  c = ' ' ∨ c = '\t' ∨ c = '\n' ∨ c = '\r'

/-- Skip inter-token whitespace, as the `json` module scanner does. -/
def skipWs (cs : List Char) : List Char :=
  cs.dropWhile isJsonWs

/-- Value of a hexadecimal digit, for `\u` escapes in JSON strings. -/
def hexDigitVal (c : Char) : Option Nat :=
  if c.isDigit then some (c.toNat - 48)
  else if 'a' ≤ c ∧ c ≤ 'f' then some (c.toNat - 87)
  else if 'A' ≤ c ∧ c ≤ 'F' then some (c.toNat - 55)
  else none

/-- Translation of a single-character JSON string escape. -/
def escChar (c : Char) : Option Char :=
  if c = '"' then some '"'
  else if c = '\\' then some '\\'
  else if c = '/' then some '/'
  else if c = 'b' then some '\x08'
  else if c = 'f' then some '\x0c'
  else if c = 'n' then some '\n'
  else if c = 'r' then some '\r'
  else if c = 't' then some '\t'
  else none

/-- Scan the body of a JSON string after the opening quote, returning the
decoded string and the remaining input.  Unescaped control characters are
rejected, as `json.loads` does in its default strict mode. -/
def scanString (acc : List Char) : List Char → Option (String × List Char)
  | [] => none
  | '"' :: rest => some (String.mk acc.reverse, rest)
  | '\\' :: 'u' :: h1 :: h2 :: h3 :: h4 :: rest =>
    match hexDigitVal h1, hexDigitVal h2, hexDigitVal h3, hexDigitVal h4 with
    | some a, some b, some c, some d =>
      scanString (Char.ofNat (((a * 16 + b) * 16 + c) * 16 + d) :: acc) rest
    | _, _, _, _ => none
  | '\\' :: 'u' :: _ :: _ :: _ :: [] => none
  | '\\' :: 'u' :: _ :: _ :: [] => none
  | '\\' :: 'u' :: _ :: [] => none
  | '\\' :: 'u' :: [] => none
  | '\\' :: e :: rest =>
    match escChar e with
    | some c => scanString (c :: acc) rest
    | none => none
  | '\\' :: [] => none
  | c :: rest =>
    if c.toNat < 32 then none else scanString (c :: acc) rest

/-- Scan the integer part of a JSON number (leading zero must stand
alone, per the JSON grammar enforced by `json.loads`). -/
def scanIntPart : List Char → Option (List Char × List Char)
  | [] => none
  | c :: rest =>
    if c = '0' then some ([c], rest)
    else if c.isDigit then
      some (c :: rest.takeWhile Char.isDigit, rest.dropWhile Char.isDigit)
    else none

/-- Scan an optional fractional part of a JSON number. -/
def scanFrac (cs : List Char) : Option (List Char × List Char) :=
  if cs.head? = some '.' then
    let ds := cs.tail.takeWhile Char.isDigit
    if ds = [] then none else some ('.' :: ds, cs.tail.dropWhile Char.isDigit)
  else some ([], cs)

/-- Scan an optional exponent part of a JSON number. -/
def scanExp (cs : List Char) : Option (List Char × List Char) :=
  match cs with
  | [] => some ([], [])
  | c :: rest =>
    if c = 'e' ∨ c = 'E' then
      let sgn := if rest.head? = some '+' ∨ rest.head? = some '-' then
        rest.take 1 else []
      let rest2 := if rest.head? = some '+' ∨ rest.head? = some '-' then
        rest.tail else rest
      let ds := rest2.takeWhile Char.isDigit
      if ds = [] then none
      else some (c :: (sgn ++ ds), rest2.dropWhile Char.isDigit)
    else some ([], cs)

/-- Scan the unsigned part of a JSON number literal (integer part,
optional fraction and exponent), returning the literal and the rest. -/
def scanNumCore (cs : List Char) : Option (List Char × List Char) :=
  match scanIntPart cs with
  | none => none
  | some (ip, r1) =>
    match scanFrac r1 with
    | none => none
    | some (fp, r2) =>
      match scanExp r2 with
      | none => none
      | some (ep, r3) => some (ip ++ fp ++ ep, r3)

/-- Scan a JSON number literal (optional minus, then the unsigned
part), returning the literal and the rest. -/
def scanNumber (cs : List Char) : Option (List Char × List Char) :=
  if cs.head? = some '-' then
    (scanNumCore cs.tail).map (fun p => ('-' :: p.1, p.2))
  else scanNumCore cs

/-- Expect a fixed literal continuation (used for true, false, null and
the Python extensions NaN, Infinity, -Infinity). -/
def expectChars (lit : List Char) (cs : List Char) : Option (List Char) :=
  if lit.isPrefixOf cs then some (cs.drop lit.length) else none

/-- Insertion into the field list of a JSON object with Python `dict`
semantics: a repeated key replaces the value in place, keeping the
original position. -/
def dictInsert (fs : List (String × Json)) (k : String) (v : Json) :
    List (String × Json) :=
  match fs with
  | [] => [(k, v)]
  | (k2, v2) :: t =>
    if k2 = k then (k2, v) :: t else (k2, v2) :: dictInsert t k v

mutual

/-- Recursive-descent JSON value parser (fuel-indexed; the top-level
entry point supplies fuel larger than the input length, which always
suffices since every recursive call consumes input). -/
def parseValue : Nat → List Char → Option (Json × List Char)
  | 0, _ => none
  | fuel + 1, cs =>
    match skipWs cs with
    | [] => none
    | c :: rest =>
      if c = '"' then
        match scanString [] rest with
        | some (s, r) => some (.str s, r)
        | none => none
      else if c = lbraceC then
        match skipWs rest with
        | [] => none
        | c2 :: r2 =>
          if c2 = rbraceC then some (.obj [], r2)
          else parseMembers fuel [] rest
      else if c = '[' then
        match skipWs rest with
        | [] => none
        | c2 :: r2 =>
          if c2 = ']' then some (.arr [], r2)
          else parseItems fuel [] rest
      else if c = 't' then
        (expectChars ['r', 'u', 'e'] rest).map (fun r => (.bool true, r))
      else if c = 'f' then
        (expectChars ['a', 'l', 's', 'e'] rest).map (fun r => (.bool false, r))
      else if c = 'n' then
        (expectChars ['u', 'l', 'l'] rest).map (fun r => (.null, r))
      else if c = 'N' then
        (expectChars ['a', 'N'] rest).map (fun r => (.num "NaN", r))
      else if c = 'I' then
        (expectChars ['n', 'f', 'i', 'n', 'i', 't', 'y'] rest).map
          (fun r => (.num "Infinity", r))
      else if c = '-' ∧ ['I', 'n', 'f', 'i', 'n', 'i', 't', 'y'].isPrefixOf rest then
        some (.num "-Infinity", rest.drop 8)
      else if c = '-' ∨ c.isDigit then
        match scanNumber (c :: rest) with
        | some (lit, r) => some (.num (String.mk lit), r)
        | none => none
      else none

/-- Member list of a JSON object (after the opening bracket, first
member not yet consumed). -/
def parseMembers : Nat → List (String × Json) → List Char →
    Option (Json × List Char)
  | 0, _, _ => none
  | fuel + 1, acc, cs =>
    match skipWs cs with
    | [] => none
    | c :: rest =>
      if c = '"' then
        match scanString [] rest with
        | none => none
        | some (k, r1) =>
          match skipWs r1 with
          | ':' :: r2 =>
            match parseValue fuel r2 with
            | none => none
            | some (v, r3) =>
              let acc2 := dictInsert acc k v
              match skipWs r3 with
              | ',' :: r4 => parseMembers fuel acc2 r4
              | c4 :: r4 => if c4 = rbraceC then some (.obj acc2, r4) else none
              | [] => none
          | _ => none
      else none

/-- Item list of a JSON array (after the opening bracket, first item not
yet consumed). -/
def parseItems : Nat → List Json → List Char → Option (Json × List Char)
  | 0, _, _ => none
  | fuel + 1, acc, cs =>
    match parseValue fuel cs with
    | none => none
    | some (v, r1) =>
      match skipWs r1 with
      | ',' :: r2 => parseItems fuel (acc ++ [v]) r2
      | c2 :: r2 => if c2 = ']' then some (.arr (acc ++ [v]), r2) else none
      | [] => none

end

/-- Core of `json.loads` on a character list: parse one value, then
require only trailing whitespace. -/
def jsonLoadsCore (cs : List Char) : Option Json :=
  match parseValue (cs.length + 1) cs with
  | some (v, rest) => if skipWs rest = [] then some v else none
  | none => none

/-- Model of `json.loads` restricted to string input, returning `none`
where the Python call raises `json.JSONDecodeError`. -/
def jsonLoads (s : String) : Option Json :=
  jsonLoadsCore s.data

/-- Whitespace in the sense of the regular-expression class backslash-s
and of `str.strip` (space, tab, newline, carriage return, vertical tab,
form feed). -/
def isPySpace (c : Char) : Bool :=
  c = ' ' ∨ c = '\t' ∨ c = '\n' ∨ c = '\r' ∨ c = '\x0b' ∨ c = '\x0c'

/-- Digit run with underscore grouping, continuing an integer literal
whose first digit contributed `acc`; models the digit part of the
builtin `int` constructor. -/
def pyIntDigitsAux (acc : Nat) : List Char → Option Nat
  | [] => some acc
  | c :: t =>
    if c.isDigit then pyIntDigitsAux (acc * 10 + (c.toNat - 48)) t
    else if c = '_' then
      match t with
      | d :: t2 =>
        if d.isDigit then pyIntDigitsAux (acc * 10 + (d.toNat - 48)) t2
        else none
      | [] => none
    else none

/-- Unsigned decimal literal as accepted by the builtin `int`
constructor (at least one digit; single underscores allowed between
digits). -/
def pyIntDigits : List Char → Option Nat
  | [] => none
  | c :: t => if c.isDigit then pyIntDigitsAux (c.toNat - 48) t else none

/-- Strip surrounding whitespace, as `int` does with string input. -/
def pyStrip (cs : List Char) : List Char :=
  ((cs.dropWhile isPySpace).reverse.dropWhile isPySpace).reverse

/-- Model of the builtin `int(s)` on a string: surrounding whitespace is
ignored, an optional sign precedes the digits; `none` stands for a
raised `ValueError`. -/
def pyInt (s : String) : Option Int :=
  match pyStrip s.data with
  | [] => none
  | c :: t =>
    if c = '-' then (pyIntDigits t).map (fun n => -(n : Int))
    else if c = '+' then (pyIntDigits t).map (fun n => (n : Int))
    else (pyIntDigits (c :: t)).map (fun n => (n : Int))

/-- The Python `str.split` with a one-character separator: split on
every occurrence, keeping empty components (the empty string splits to
a single empty component). -/
def splitOnChar (sep : Char) : List Char → List (List Char)
  | [] => [[]]
  | c :: t =>
    if c = sep then [] :: splitOnChar sep t
    else
      match splitOnChar sep t with
      | h :: rest => (c :: h) :: rest
      | [] => [[c]]

/-- `int(key.split('.')[1])` from `seal_campaign` (mailersend.py line
150): the text between the first and second dot of a validation-error
key, converted to an integer; `none` stands for the `IndexError` or
`ValueError` that the surrounding `try` swallows. -/
def parseKeyIndex (key : String) : Option Int :=
  match (splitOnChar '.' key.data).get? 1 with
  | none => none
  | some s => pyInt (String.mk s)

/-- `self.contacts[contact_index]` (mailersend.py line 151): subscript
into the ordered contact sequence supplied by the caller (a Django
queryset per the spec, section 3); an index outside `0 ≤ i < length`
raises, which the model signals with `none` (querysets reject negative
indices). -/
def contactAt (contacts : List Contact) (i : Int) : Option Contact :=
  if 0 ≤ i then contacts.get? i.toNat else none

/-- Error codes attached to `MailerSendException`: integers such as 403,
429 and the internal 5001, or the sentinel message string used for the
bulk-email-not-found condition (mailersend.py lines 21-24). -/
abbrev ECode := Sum Int String

/-- ERROR_CODE_UNAUTHORIZED (mailersend.py line 21). -/
def ERROR_CODE_UNAUTHORIZED : Int := 403

/-- ERROR_CODE_DAILY_API_QUOTA_LIMIT_REACHED (mailersend.py line 22). -/
def ERROR_CODE_DAILY_API_QUOTA_LIMIT_REACHED : Int := 429

/-- ERROR_CODE_BULK_EMAIL_NOT_FOUND (mailersend.py line 23): the
provider supplies no numeric code, so the message text is the code. -/
def ERROR_CODE_BULK_EMAIL_NOT_FOUND : String := "Resource not found."

/-- ERROR_CODE_BULK_CHECK_TIMED_OUT (mailersend.py line 24). -/
def ERROR_CODE_BULK_CHECK_TIMED_OUT : Int := 5001

/-- ERROR_CODES (mailersend.py lines 25-30): classified-code to
fallback-status table. -/
def ERROR_CODES : List (ECode × CampaignStatus) :=
  [(.inl ERROR_CODE_UNAUTHORIZED, .UNSENT),
   (.inl ERROR_CODE_DAILY_API_QUOTA_LIMIT_REACHED, .UNSENT),
   (.inr ERROR_CODE_BULK_EMAIL_NOT_FOUND, .UNSENT),
   (.inl ERROR_CODE_BULK_CHECK_TIMED_OUT, .SENDING)]

/-- ERROR_MESSAGE_UNAUTHORIZED (mailersend.py line 32). -/
def ERROR_MESSAGE_UNAUTHORIZED : String := "This action is unauthorized"

/-- ERROR_MESSAGE_DAILY_API_QUOTA_LIMIT_REACHED (mailersend.py line 33). -/
def ERROR_MESSAGE_DAILY_API_QUOTA_LIMIT_REACHED : String :=
  "Daily API quota limit was reached"

/-- ERROR_MESSAGE_BULK_EMAIL_NOT_FOUND (mailersend.py line 34). -/
def ERROR_MESSAGE_BULK_EMAIL_NOT_FOUND : String :=
  "Unable to find bulk email resource"

/-- ERROR_MESSAGE_BULK_CHECK_TIMED_OUT (mailersend.py line 35). -/
def ERROR_MESSAGE_BULK_CHECK_TIMED_OUT : String :=
  "Checking bulk email status timed out"

/-- BULK_STATE_COMPLETED (mailersend.py line 37). -/
def BULK_STATE_COMPLETED : String := "completed"

/-- MAILERSEND_MAX_NO_OF_BULK_STATUS_CHECKS default (conf.py line 4). -/
def MAILERSEND_MAX_NO_OF_BULK_STATUS_CHECKS : Nat := 10

/-- Outcome of one `parse_response` call (mailersend.py lines 282-316).
`nothing` is the bare `None` returned for a falsy response; `ok` is the
`(code, payload)` pair; `classified` is a raised `MailerSendException`;
`unclassified` is the re-raise of the underlying decode exception at
line 308 (the raw response text is logged there, not attached to the
raised error). -/
inductive ParseResult where
  | nothing
  | ok (code : Option Int) (payload : Json)
  | classified (code : ECode) (msg : String)
  | unclassified
deriving Repr

/-- Group extraction of the anchored pattern digits, whitespace, rest
(with DOTALL) used at mailersend.py line 301: the match requires a
nonempty leading digit run followed by at least one whitespace
character; group one is the digit run and group two the remainder after
the maximal whitespace run. -/
def regexCodePayload (s : String) : Option (String × String) :=
  if s.data.takeWhile Char.isDigit = [] then none
  else if (s.data.dropWhile Char.isDigit).takeWhile isPySpace = [] then none
  else some (String.mk (s.data.takeWhile Char.isDigit),
    String.mk ((s.data.dropWhile Char.isDigit).dropWhile isPySpace))

/-- Numeric value of the all-digit group one (the call `int` at
mailersend.py line 305 applied to a match of the digit class). -/
def digitsToNat (cs : List Char) : Nat :=
  cs.foldl (fun acc c => acc * 10 + (c.toNat - 48)) 0

/-- `MailersendEmailBackend.parse_response` (mailersend.py lines
282-316): falsy input returns `None`; then a bare `json.loads`; then
the code-and-payload decoding; decoded fatal codes 403 and 429 raise a
classified `MailerSendException`; any decode failure re-raises the
underlying exception. -/
def parse_response (response : Option String) : ParseResult :=
  match response with
  | none => .nothing
  | some s =>
    if s = "" then .nothing
    else
      match jsonLoads s with
      | some p => .ok none p
      | none =>
        match regexCodePayload s with
        | none => .unclassified
        | some (ds, payloadStr) =>
          match jsonLoads payloadStr with
          | none => .unclassified
          | some p =>
            let code : Int := (digitsToNat ds.data : Int)
            if code = ERROR_CODE_UNAUTHORIZED then
              .classified (.inl code) ERROR_MESSAGE_UNAUTHORIZED
            else if code = ERROR_CODE_DAILY_API_QUOTA_LIMIT_REACHED then
              .classified (.inl code) ERROR_MESSAGE_DAILY_API_QUOTA_LIMIT_REACHED
            else .ok (some code) p

/-- Substring test on character lists, for the Python containment
operator applied to a string. -/
def listContainsSub (needle : List Char) : List Char → Bool
  | [] => needle = []
  | c :: t => needle.isPrefixOf (c :: t) || listContainsSub needle t

/-- The Python containment operator `k in j` for a string key against a
decoded JSON value: key membership on a dict, element equality on a
list, substring test on a string; on any other value the operator
raises `TypeError`, signalled with `Except.error`. -/
def pyIn (k : String) (j : Json) : Except Unit Bool :=
  match j with
  | .obj fs => .ok (fs.any (fun p => p.1 = k))
  | .arr xs => .ok (xs.any (fun x => match x with | .str s => s = k | _ => false))
  | .str s => .ok (listContainsSub k.data s.data)
  | _ => .error ()

/-- The Python subscript `j[k]` with a string key: dict lookup
(`KeyError` when missing), `TypeError` on every non-dict value. -/
def pyGet (j : Json) (k : String) : Except Unit Json :=
  match j with
  | .obj fs =>
    match fs.find? (fun p => p.1 = k) with
    | some p => .ok p.2
    | none => .error ()
  | _ => .error ()

/-- Python truthiness of the optional integer code: `None` and `0` are
falsy. -/
def pyFalsyCode : Option Int → Bool
  | none => true
  | some n => n = 0

/-- Errors escaping the dispatch thread body: a raised
`MailerSendException` (code and message), or any other exception. -/
inductive RunErr where
  | ms (code : ECode) (msg : String)
  | generic
deriving DecidableEq, Repr

/-- Branch taken by one iteration of the status-check loop
(mailersend.py lines 126-130) for a parsed `(code, response)` pair. -/
inductive StepKind where
  | completed
  | notFound
  | queued
  | genericErr
deriving DecidableEq, Repr

/-- The completed test at mailersend.py line 126: `"data" in response
and "state" in response["data"] and response["data"]["state"] ==
BULK_STATE_COMPLETED`, with short-circuit evaluation and `Except.error`
for a raised `TypeError`. -/
def completedCheck (resp : Json) : Except Unit Bool := do
  let b1 ← pyIn "data" resp
  if b1 then
    let d ← pyGet resp "data"
    let b2 ← pyIn "state" d
    if b2 then
      let st ← pyGet d "state"
      return (match st with | .str s => s = BULK_STATE_COMPLETED | _ => false)
    else
      return false
  else
    return false

/-- The not-found test at mailersend.py line 128: `not code and
"message" in response and response['message'] ==
ERROR_CODE_BULK_EMAIL_NOT_FOUND`. -/
def notFoundCheck (code : Option Int) (resp : Json) : Except Unit Bool := do
  if pyFalsyCode code then
    let b ← pyIn "message" resp
    if b then
      let m ← pyGet resp "message"
      return (match m with | .str s => s = ERROR_CODE_BULK_EMAIL_NOT_FOUND | _ => false)
    else
      return false
  else
    return false

/-- Classification of one loop iteration of `check_bulk_status`: the
completed test runs first, then the not-found test; a `TypeError`
raised by either test escapes as a generic error. -/
def stepClassify (code : Option Int) (resp : Json) : StepKind :=
  match completedCheck resp with
  | .error _ => .genericErr
  | .ok true => .completed
  | .ok false =>
    match notFoundCheck code resp with
    | .error _ => .genericErr
    | .ok true => .notFound
    | .ok false => .queued

/-- The while loop of `check_bulk_status` (mailersend.py lines
123-137).  `poll n` is the parsed outcome of the status query issued
when the check counter equals `n`; the second component of the result
counts the status queries issued.  A parse that returned `None`
(`nothing`) makes the tuple unpacking at line 124 raise, hence a
generic error; a classified parse exception propagates; exhausting the
attempt budget raises the timed-out `MailerSendException`. -/
def pollLoop (poll : Nat → ParseResult) :
    Nat → Nat → Except RunErr (Option Int × Json) × Nat
  | qdone, 0 =>
    (.error (.ms (.inl ERROR_CODE_BULK_CHECK_TIMED_OUT)
      ERROR_MESSAGE_BULK_CHECK_TIMED_OUT), qdone)
  | qdone, remaining + 1 =>
    match poll qdone with
    | .nothing => (.error .generic, qdone + 1)
    | .unclassified => (.error .generic, qdone + 1)
    | .classified c m => (.error (.ms c m), qdone + 1)
    | .ok code resp =>
      match stepClassify code resp with
      | .completed => (.ok (code, resp), qdone + 1)
      | .genericErr => (.error .generic, qdone + 1)
      | .notFound =>
        (.error (.ms (.inr ERROR_CODE_BULK_EMAIL_NOT_FOUND)
          ERROR_MESSAGE_BULK_EMAIL_NOT_FOUND), qdone + 1)
      | .queued => pollLoop poll (qdone + 1) remaining

/-- `SendCampaignThread.check_bulk_status` (mailersend.py lines
102-137): read `response['bulk_email_id']` (a missing key or non-dict
payload raises and is caught by the generic handler), then poll up to
`maxChecks` times. -/
def check_bulk_status (poll : Nat → ParseResult) (maxChecks : Nat)
    (response : Json) : Except RunErr (Option Int × Json) × Nat :=
  match pyGet response "bulk_email_id" with
  | .error _ => (.error .generic, 0)
  | .ok _ => pollLoop poll 0 maxChecks

/-- The accumulation loop of `seal_campaign` (mailersend.py lines
147-155): for each validation-error key, parse the positional index and
subscript the contact sequence twice; any exception inside the `try` is
logged and the key skipped.  The resulting list holds the ids appended
for the keys that resolved. -/
def unsuccessful_contacts (contacts : List Contact)
    (validation_errors : List (String × Json)) : List Nat :=
  validation_errors.foldl
    (fun acc kv =>
      match parseKeyIndex kv.1 with
      | none => acc
      | some i =>
        match contactAt contacts i with
        | none => acc
        | some c => acc ++ [c.id])
    []

/-- The receipt list built by `Receipt.objects.bulk_create`
(mailersend.py lines 158-161): one receipt per contact, in contact
order, with `success = 0` exactly when the contact id was collected as
unsuccessful. -/
def seal_receipts (campaign_id : Nat) (contacts : List Contact)
    (validation_errors : List (String × Json)) : List Receipt :=
  let uns := unsuccessful_contacts contacts validation_errors
  contacts.map (fun c =>
    { campaign_id := campaign_id
      contact_id := c.id
      success := if c.id ∈ uns then false else true })

/-- A primitive database write performed by the dispatch thread. -/
inductive DbOp where
  | addReceipt (r : Receipt)
  | setStatus (s : CampaignStatus)
  | setSentDate (t : Nat)
deriving DecidableEq, Repr

/-- Database state observable from outside the dispatch thread: the
campaign row (status and sent date) and the receipt table. -/
structure Db where
  status : CampaignStatus
  sent_date : Option Nat
  receipts : List Receipt
deriving DecidableEq, Repr

/-- Apply one primitive write. -/
def applyOp (db : Db) : DbOp → Db
  | .addReceipt r => { db with receipts := db.receipts ++ [r] }
  | .setStatus s => { db with status := s }
  | .setSentDate t => { db with sent_date := some t }

/-- Apply an atomically committed batch of writes. -/
def applyBatch (db : Db) (ops : List DbOp) : Db :=
  ops.foldl applyOp db

/-- The writes of the `transaction.atomic` block of `seal_campaign`
(mailersend.py lines 157-167): bulk-create all receipts, set the status
to SENT and set the sent date (`timezone.now()` is the abstract instant
`now`). -/
def seal_ops (campaign_id : Nat) (contacts : List Contact)
    (validation_errors : List (String × Json)) (now : Nat) : List DbOp :=
  (seal_receipts campaign_id contacts validation_errors).map .addReceipt
    ++ [.setStatus .SENT, .setSentDate now]

/-- Provider behaviour seen through `parse_response`: the parsed outcome
of `send_bulk` and of each successive `get_bulk_status_by_id` call. -/
structure Behavior where
  send_bulk : ParseResult
  poll : Nat → ParseResult

/-- The fallback-status computation of the `MailerSendException` handler
(mailersend.py lines 82-85): start from UNSENT; when the code is a key
of ERROR_CODES, take the mapped status (the `get` default UNSENT also
covers unknown codes). -/
def fallbackStatus (c : ECode) : CampaignStatus :=
  match ERROR_CODES.find? (fun p => p.1 = c) with
  | some p => p.2
  | none => .UNSENT

/-- The `try` body of `SendCampaignThread.run` (mailersend.py lines
67-77), executed inside the outer `transaction.atomic`: submit, return
early on a test send, poll, then seal.  The value returned is the list
of writes the outer transaction commits; an exception rolls the
transaction back, so the writes are discarded.  Reading
`validation_errors` out of the completed payload raises on a missing
key, and `seal_campaign` raises `AttributeError` at line 148 when the
value is not a dict (for instance the `null` the provider sends when no
recipient failed). -/
def tryDispatch (beh : Behavior) (test_send : Bool) (campaign_id : Nat)
    (contacts : List Contact) (maxChecks : Nat) (now : Nat) :
    Except RunErr (List DbOp) :=
  match beh.send_bulk with
  | .nothing => .error .generic
  | .unclassified => .error .generic
  | .classified c m => .error (.ms c m)
  | .ok _code resp =>
    if test_send then .ok []
    else
      match (check_bulk_status beh.poll maxChecks resp).1 with
      | .error e => .error e
      | .ok (_code2, resp2) =>
        match pyGet resp2 "data" with
        | .error _ => .error .generic
        | .ok d =>
          match pyGet d "validation_errors" with
          | .error _ => .error .generic
          | .ok ve =>
            match ve with
            | .obj fields => .ok (seal_ops campaign_id contacts fields now)
            | _ => .error .generic

/-- Result of one dispatch thread run: the batches of writes committed
to the database, in commit order, and whether an error message was
emitted to the notification sink. -/
structure RunResult where
  batches : List (List DbOp)
  errorReported : Bool
deriving DecidableEq, Repr

/-- `SendCampaignThread.run` (mailersend.py lines 63-100).  A normal
exit commits the writes of the outer transaction as one batch.  The
`MailerSendException` handler reports an error and, except on a test
send, saves the fallback status outside any transaction; the bare
`except` handler reports an error and saves UNSENT unconditionally --
it does not test `self.test_send`. -/
def run (beh : Behavior) (test_send : Bool) (campaign_id : Nat)
    (contacts : List Contact) (maxChecks : Nat) (now : Nat) : RunResult :=
  match tryDispatch beh test_send campaign_id contacts maxChecks now with
  | .ok ops => { batches := [ops], errorReported := false }
  | .error (.ms c _m) =>
    if test_send then { batches := [], errorReported := true }
    else { batches := [[.setStatus (fallbackStatus c)]], errorReported := true }
  | .error .generic =>
    { batches := [[.setStatus .UNSENT]], errorReported := true }

/-- Final database state after one dispatch thread run. -/
def runDb (beh : Behavior) (test_send : Bool) (campaign_id : Nat)
    (contacts : List Contact) (maxChecks : Nat) (now : Nat) (db : Db) : Db :=
  (run beh test_send campaign_id contacts maxChecks now).batches.foldl
    applyBatch db

/-- States observable from outside the dispatch thread: the initial
state and the state after each committed batch (Django transactions
expose no state in the middle of a batch). -/
def observableStates (db : Db) : List (List DbOp) → List Db
  | [] => [db]
  | b :: bs => db :: observableStates (applyBatch db b) bs

/-- The UNSENT status the campaign receives from the exception handlers
of `run`: the classified handler consults the code table, the bare
handler always writes UNSENT (mailersend.py lines 91 and 97). -/
def handlerStatus : RunErr → CampaignStatus
  | .ms c _ => fallbackStatus c
  | .generic => .UNSENT

/-- A validation-error key of `ve` resolves to the valid position `i`
of the recipient list: its embedded positional index parses and equals
`i`, and `i` indexes the list. -/
def resolvesTo (contacts : List Contact) (ve : List (String × Json))
    (i : Nat) : Prop :=
  i < contacts.length ∧ ∃ kv ∈ ve, parseKeyIndex kv.1 = some (i : Int)

/-- The contribution of a single validation-error key to the
unsuccessful-id list: the id of the contact it resolves to, when it
resolves. -/
def keyContribution (contacts : List Contact) (kv : String × Json) :
    Option Nat :=
  (parseKeyIndex kv.1).bind (fun i => (contactAt contacts i).map Contact.id)

/-- Recipient list of the concrete four-recipient scenario. -/
def exContacts : List Contact :=
  [⟨10, "a@example.com"⟩, ⟨11, "b@example.com"⟩,
   ⟨12, "c@example.com"⟩, ⟨13, "d@example.com"⟩]

/-- Validation-error map of the concrete scenario: keys `message.1` and
`message.3`, with bodies shaped like the provider examples recorded in
the source comments. -/
def exVE : List (String × Json) :=
  [("message.1", Json.obj [("to.0.email",
      Json.arr [Json.str "Recipient domain must match senders domain."])]),
   ("message.3", Json.obj [("to.0.email",
      Json.arr [Json.str "Recipient domain must match senders domain."])])]

/-- An unsent campaign with an empty receipt table. -/
def exDb : Db := ⟨.UNSENT, none, []⟩

/-- The quota-exceeded submission response of the spec scenario. -/
def str429 : String :=
  "429 \x7b\"message\":\"Daily API quota limit was reached\"\x7d"

/-- A queued bulk-status payload. -/
def exQueued : Json := Json.obj [("data", Json.obj [("state", Json.str "queued")])]

/-- A completed bulk-status payload carrying the scenario's
validation-error map. -/
def exCompleted : Json :=
  Json.obj [("data", Json.obj
    [("state", Json.str BULK_STATE_COMPLETED),
     ("validation_errors", Json.obj exVE)])]

/-- A submission acknowledgement payload with a bulk email id. -/
def exAck : Json :=
  Json.obj [("message", Json.str "The bulk email is being processed."),
            ("bulk_email_id", Json.str "63dc744e837a822014066875")]

/-- A parse outcome counts as a queued loop step when it is a parsed
pair whose classification takes the still-queued branch. -/
def isQueuedStep (pr : ParseResult) : Prop :=
  ∃ c r, pr = .ok c r ∧ stepClassify c r = .queued

theorem applyBatch_append (db : Db) (l1 l2 : List DbOp) :
    applyBatch db (l1 ++ l2) = applyBatch (applyBatch db l1) l2 :=
  List.foldl_append _ _ _ _

theorem applyBatch_addReceipts (db : Db) (rs : List Receipt) :
    applyBatch db (rs.map .addReceipt) =
      { db with receipts := db.receipts ++ rs } := by
  induction rs generalizing db with
  | nil => simp [applyBatch]
  | cons r t ih =>
    simp only [List.map_cons, applyBatch, List.foldl_cons] at *
    rw [show applyOp db (DbOp.addReceipt r) =
      { db with receipts := db.receipts ++ [r] } from rfl]
    rw [ih]
    simp

theorem applyBatch_seal (db : Db) (cid : Nat) (contacts : List Contact)
    (ve : List (String × Json)) (now : Nat) :
    applyBatch db (seal_ops cid contacts ve now) =
      { status := .SENT, sent_date := some now,
        receipts := db.receipts ++ seal_receipts cid contacts ve } := by
  rw [seal_ops, applyBatch_append, applyBatch_addReceipts]
  rfl

theorem pollLoop_count_le (poll : Nat → ParseResult) :
    ∀ (rem q : Nat), (pollLoop poll q rem).2 ≤ q + rem := by
  intro rem
  induction rem with
  | zero => intro q; simp [pollLoop]
  | succ n ih =>
    intro q
    cases hp : poll q with
    | nothing => simp [pollLoop, hp]
    | unclassified => simp [pollLoop, hp]
    | classified c m => simp [pollLoop, hp]
    | ok c r =>
      cases hs : stepClassify c r with
      | completed => simp [pollLoop, hp, hs]
      | genericErr => simp [pollLoop, hp, hs]
      | notFound => simp [pollLoop, hp, hs]
      | queued =>
        simp only [pollLoop, hp, hs]
        calc (pollLoop poll (q + 1) n).2 ≤ (q + 1) + n := ih (q + 1)
          _ = q + (n + 1) := by omega

theorem pollLoop_skip (poll : Nat → ParseResult) :
    ∀ (k q rem : Nat), k ≤ rem →
    (∀ i, i < k → isQueuedStep (poll (q + i))) →
    pollLoop poll q rem = pollLoop poll (q + k) (rem - k) := by
  intro k
  induction k with
  | zero => intro q rem _ _; simp
  | succ n ih =>
    intro q rem hle hq
    obtain ⟨c, r, hpr, hcls⟩ := hq 0 (Nat.succ_pos n)
    rw [Nat.add_zero] at hpr
    cases rem with
    | zero => omega
    | succ m =>
      have hstep : pollLoop poll q (m + 1) = pollLoop poll (q + 1) m := by
        simp [pollLoop, hpr, hcls]
      rw [hstep, ih (q + 1) m (by omega) (fun i hi => by
        have hh := hq (i + 1) (by omega)
        rwa [show q + (i + 1) = q + 1 + i by omega] at hh)]
      congr 1 <;> omega

/-- A not-found bulk-status payload, as parsed from the provider
response recorded in the source comments. -/
def exNotFound : Json := Json.obj [("message", Json.str "Resource not found.")]

/-- A status sequence that reports queued twice and then completed. -/
def exPoll : Nat → ParseResult :=
  fun n => if n < 2 then .ok none exQueued else .ok none exCompleted

/-- A status sequence that reports not-found from the first query. -/
def exPollNF : Nat → ParseResult := fun _ => .ok none exNotFound

/-- C3: for every attempt budget and every status sequence the poller
issues at most `maxChecks` queries; on a sequence of `k` queued answers
followed by a completed answer with `k` below the budget it returns the
completed parse on exactly attempt `k + 1`; when every answer within the
budget is still queued it raises the timed-out `MailerSendException`
carrying the internal code 5001. -/
theorem check_bulk_status_budget_and_completion
    (poll : Nat → ParseResult) (maxChecks : Nat) (response : Json)
    (bid : Json) (hresp : pyGet response "bulk_email_id" = .ok bid) :
    (check_bulk_status poll maxChecks response).2 ≤ maxChecks ∧
    (∀ k c r, k < maxChecks →
      (∀ i, i < k → isQueuedStep (poll i)) →
      poll k = .ok c r → stepClassify c r = .completed →
      check_bulk_status poll maxChecks response = (.ok (c, r), k + 1)) ∧
    ((∀ i, i < maxChecks → isQueuedStep (poll i)) →
      check_bulk_status poll maxChecks response =
        (.error (.ms (.inl ERROR_CODE_BULK_CHECK_TIMED_OUT)
          ERROR_MESSAGE_BULK_CHECK_TIMED_OUT), maxChecks)) := by
  have hcbs : check_bulk_status poll maxChecks response =
      pollLoop poll 0 maxChecks := by
    simp [check_bulk_status, hresp]
  refine ⟨?_, ?_, ?_⟩
  · rw [hcbs]
    simpa using pollLoop_count_le poll maxChecks 0
  · intro k c r hk hq hpr hcomp
    rw [hcbs, pollLoop_skip poll k 0 maxChecks (Nat.le_of_lt hk)
      (fun i hi => by simpa using hq i hi)]
    obtain ⟨m, hm⟩ : ∃ m, maxChecks - k = m + 1 :=
      ⟨maxChecks - k - 1, by omega⟩
    rw [hm]
    simp [pollLoop, hpr, hcomp]
  · intro hq
    rw [hcbs, pollLoop_skip poll maxChecks 0 maxChecks (Nat.le_refl _)
      (fun i hi => by simpa using hq i hi)]
    simp [pollLoop]

/-- C3 witness: with the default budget of ten checks and two queued
answers before completion, the poller returns the completed payload on
the third query. -/
theorem check_bulk_status_budget_and_completion_witness :
    check_bulk_status exPoll MAILERSEND_MAX_NO_OF_BULK_STATUS_CHECKS exAck =
      (.ok (none, exCompleted), 3) :=
  (check_bulk_status_budget_and_completion exPoll
    MAILERSEND_MAX_NO_OF_BULK_STATUS_CHECKS exAck
    (Json.str "63dc744e837a822014066875") rfl).2.1 2 none exCompleted
    (by decide)
    (fun i hi => ⟨none, exQueued, by simp [exPoll, hi], rfl⟩)
    (by simp [exPoll]) rfl

/-- C4: whenever the poller has seen only queued answers and a query
then reports the not-found condition, it raises the classified
`BatchNotFound` error on that same attempt, having issued exactly
`j + 1` queries (one when the first query reports not-found), and never
retries toward budget exhaustion. -/
theorem check_bulk_status_not_found_immediate
    (poll : Nat → ParseResult) (maxChecks : Nat) (response : Json)
    (bid : Json) (hresp : pyGet response "bulk_email_id" = .ok bid)
    (j : Nat) (c : Option Int) (r : Json) (hj : j < maxChecks)
    (hq : ∀ i, i < j → isQueuedStep (poll i))
    (hpr : poll j = .ok c r) (hnf : stepClassify c r = .notFound) :
    check_bulk_status poll maxChecks response =
      (.error (.ms (.inr ERROR_CODE_BULK_EMAIL_NOT_FOUND)
        ERROR_MESSAGE_BULK_EMAIL_NOT_FOUND), j + 1) := by
  have hcbs : check_bulk_status poll maxChecks response =
      pollLoop poll 0 maxChecks := by
    simp [check_bulk_status, hresp]
  rw [hcbs, pollLoop_skip poll j 0 maxChecks (Nat.le_of_lt hj)
    (fun i hi => by simpa using hq i hi)]
  obtain ⟨m, hm⟩ : ∃ m, maxChecks - j = m + 1 :=
    ⟨maxChecks - j - 1, by omega⟩
  rw [hm]
  simp [pollLoop, hpr, hnf]

/-- C4 witness: a first query reporting not-found raises the classified
error with attempt count one. -/
theorem check_bulk_status_not_found_immediate_witness :
    check_bulk_status exPollNF MAILERSEND_MAX_NO_OF_BULK_STATUS_CHECKS exAck =
      (.error (.ms (.inr ERROR_CODE_BULK_EMAIL_NOT_FOUND)
        ERROR_MESSAGE_BULK_EMAIL_NOT_FOUND), 1) :=
  check_bulk_status_not_found_immediate exPollNF
    MAILERSEND_MAX_NO_OF_BULK_STATUS_CHECKS exAck
    (Json.str "63dc744e837a822014066875") rfl 0 none exNotFound
    (by decide) (fun i hi => absurd hi (Nat.not_lt_zero i)) rfl rfl

theorem fallbackStatus_ne_SENT (c : ECode) : fallbackStatus c ≠ .SENT := by
  unfold fallbackStatus
  cases hf : ERROR_CODES.find? (fun p => p.1 = c) with
  | none => simp
  | some p =>
    have hmem : p ∈ ERROR_CODES := List.mem_of_find?_eq_some hf
    have hall : ∀ q ∈ ERROR_CODES, q.2 ≠ CampaignStatus.SENT := by
      intro q hq
      simp only [ERROR_CODES, List.mem_cons, List.not_mem_nil, or_false] at hq
      rcases hq with rfl | rfl | rfl | rfl <;> decide
    simpa using hall p hmem

theorem handlerStatus_ne_SENT (e : RunErr) : handlerStatus e ≠ .SENT := by
  cases e with
  | ms c m => exact fallbackStatus_ne_SENT c
  | generic => simp [handlerStatus]

theorem runDb_of_ms_nontest (beh : Behavior) (cid : Nat)
    (contacts : List Contact) (maxChecks now : Nat) (db : Db)
    (c : ECode) (m : String)
    (h : tryDispatch beh false cid contacts maxChecks now = .error (.ms c m)) :
    runDb beh false cid contacts maxChecks now db =
      { db with status := fallbackStatus c } := by
  simp [runDb, run, h, applyBatch, applyOp]

theorem runDb_of_generic_nontest (beh : Behavior) (cid : Nat)
    (contacts : List Contact) (maxChecks now : Nat) (db : Db)
    (h : tryDispatch beh false cid contacts maxChecks now = .error .generic) :
    runDb beh false cid contacts maxChecks now db =
      { db with status := .UNSENT } := by
  simp [runDb, run, h, applyBatch, applyOp]

/-- C5: the code-to-status table maps the unauthorized, quota-exceeded
and not-found codes to UNSENT and the poll-timeout code to SENDING;
codes absent from the table fall back to UNSENT; a classified failure
caught at the dispatch boundary writes exactly the table's status; and
the concrete quota-exceeded submission response raises a classified
error with code 429 and leaves an unsent campaign at UNSENT. -/
theorem classified_fallback_table :
    (fallbackStatus (.inl ERROR_CODE_UNAUTHORIZED) = .UNSENT ∧
     fallbackStatus (.inl ERROR_CODE_DAILY_API_QUOTA_LIMIT_REACHED) = .UNSENT ∧
     fallbackStatus (.inr ERROR_CODE_BULK_EMAIL_NOT_FOUND) = .UNSENT ∧
     fallbackStatus (.inl ERROR_CODE_BULK_CHECK_TIMED_OUT) = .SENDING) ∧
    (∀ c : ECode, (∀ p ∈ ERROR_CODES, p.1 ≠ c) → fallbackStatus c = .UNSENT) ∧
    (∀ (beh : Behavior) (cid : Nat) (contacts : List Contact)
       (maxChecks now : Nat) (db : Db) (c : ECode) (m : String),
      tryDispatch beh false cid contacts maxChecks now = .error (.ms c m) →
      runDb beh false cid contacts maxChecks now db =
        { db with status := fallbackStatus c }) ∧
    (parse_response (some str429) =
      .classified (.inl ERROR_CODE_DAILY_API_QUOTA_LIMIT_REACHED)
        ERROR_MESSAGE_DAILY_API_QUOTA_LIMIT_REACHED) ∧
    (∀ (pollf : Nat → ParseResult) (cid : Nat) (contacts : List Contact)
       (maxChecks now : Nat) (db : Db),
      db.status = .UNSENT →
      runDb ⟨parse_response (some str429), pollf⟩ false cid contacts
        maxChecks now db = db) := by
  refine ⟨⟨rfl, rfl, rfl, rfl⟩, ?_, ?_, rfl, ?_⟩
  · intro c hc
    unfold fallbackStatus
    rw [List.find?_eq_none.mpr (fun p hp => by simpa using hc p hp)]
  · intro beh cid contacts maxChecks now db c m h
    exact runDb_of_ms_nontest beh cid contacts maxChecks now db c m h
  · intro pollf cid contacts maxChecks now db hdb
    have h : tryDispatch ⟨parse_response (some str429), pollf⟩ false cid
        contacts maxChecks now =
        .error (.ms (.inl ERROR_CODE_DAILY_API_QUOTA_LIMIT_REACHED)
          ERROR_MESSAGE_DAILY_API_QUOTA_LIMIT_REACHED) := rfl
    rw [runDb_of_ms_nontest _ _ _ _ _ _ _ _ h]
    have hf : fallbackStatus (.inl ERROR_CODE_DAILY_API_QUOTA_LIMIT_REACHED) =
        .UNSENT := rfl
    cases db with
    | mk st sd rc =>
      simp only [Db.mk.injEq, and_true]
      rw [hf]
      exact hdb.symm

/-- C5 witness: an unknown code 500 falls back to UNSENT, and the
concrete quota-exceeded dispatch leaves the concrete unsent campaign
unchanged at UNSENT. -/
theorem classified_fallback_table_witness :
    fallbackStatus (.inl 500) = .UNSENT ∧
    runDb ⟨parse_response (some str429), exPollNF⟩ false 7 exContacts 10 99
      exDb = exDb :=
  ⟨classified_fallback_table.2.1 (.inl 500) (by
      intro p hp
      simp only [ERROR_CODES, List.mem_cons, List.not_mem_nil, or_false] at hp
      rcases hp with rfl | rfl | rfl | rfl <;> decide),
   classified_fallback_table.2.2.2.2 exPollNF 7 exContacts 10 99 exDb rfl⟩

/-- C10: a non-test dispatch whose submission succeeded but which then
raised during polling or sealing persists no receipts and no SENT
status: the outer transaction rolls every buffered write back, and the
only surviving effect is the handler's fallback status write (which is
never SENT). -/
theorem failed_dispatch_rollback (beh : Behavior) (cid : Nat)
    (contacts : List Contact) (maxChecks now : Nat) (db : Db) (e : RunErr)
    (c0 : Option Int) (r0 : Json)
    (_hsub : beh.send_bulk = .ok c0 r0)
    (herr : tryDispatch beh false cid contacts maxChecks now = .error e) :
    runDb beh false cid contacts maxChecks now db =
      { db with status := handlerStatus e } ∧
    handlerStatus e ≠ .SENT ∧
    (runDb beh false cid contacts maxChecks now db).receipts = db.receipts ∧
    (runDb beh false cid contacts maxChecks now db).sent_date =
      db.sent_date := by
  have hrun : runDb beh false cid contacts maxChecks now db =
      { db with status := handlerStatus e } := by
    cases e with
    | ms c m =>
      exact runDb_of_ms_nontest beh cid contacts maxChecks now db c m herr
    | generic =>
      exact runDb_of_generic_nontest beh cid contacts maxChecks now db herr
  exact ⟨hrun, handlerStatus_ne_SENT e, by rw [hrun], by rw [hrun]⟩

/-- A behaviour whose submission is acknowledged but whose status never
leaves the queued state, driving the poller into its timeout. -/
def exBehTimeout : Behavior := ⟨.ok (some 202) exAck, fun _ => .ok none exQueued⟩

/-- The timed-out classified error raised on budget exhaustion. -/
def exTimeoutErr : RunErr :=
  .ms (.inl ERROR_CODE_BULK_CHECK_TIMED_OUT) ERROR_MESSAGE_BULK_CHECK_TIMED_OUT

/-- C10 witness: the timed-out dispatch leaves the receipt table and the
sent date untouched and parks the campaign at the SENDING fallback. -/
theorem failed_dispatch_rollback_witness :
    runDb exBehTimeout false 7 exContacts 10 99 exDb =
      { exDb with status := handlerStatus exTimeoutErr } ∧
    handlerStatus exTimeoutErr ≠ .SENT ∧
    (runDb exBehTimeout false 7 exContacts 10 99 exDb).receipts =
      exDb.receipts ∧
    (runDb exBehTimeout false 7 exContacts 10 99 exDb).sent_date =
      exDb.sent_date :=
  failed_dispatch_rollback exBehTimeout 7 exContacts 10 99 exDb
    exTimeoutErr (some 202) exAck rfl rfl

theorem tryDispatch_ok_seal (beh : Behavior) (cid : Nat)
    (contacts : List Contact) (maxChecks now : Nat) (ops : List DbOp)
    (hok : tryDispatch beh false cid contacts maxChecks now = .ok ops) :
    ∃ fields, ops = seal_ops cid contacts fields now := by
  unfold tryDispatch at hok
  cases hb : beh.send_bulk <;> rw [hb] at hok
  case nothing => simp at hok
  case unclassified => simp at hok
  case classified c m => simp at hok
  case ok c0 r0 =>
    simp only [Bool.false_eq_true, if_false] at hok
    rcases hcbs : (check_bulk_status beh.poll maxChecks r0).1 with e | p2
    · rw [hcbs] at hok; simp at hok
    · obtain ⟨c2, r2⟩ := p2
      rw [hcbs] at hok
      dsimp only at hok
      rcases hd : pyGet r2 "data" with u | d
      · rw [hd] at hok; simp at hok
      · rw [hd] at hok
        dsimp only at hok
        rcases hv : pyGet d "validation_errors" with u | ve
        · rw [hv] at hok; simp at hok
        · rw [hv] at hok
          dsimp only at hok
          cases ve with
          | null => simp at hok
          | bool b => simp at hok
          | num l => simp at hok
          | str s => simp at hok
          | arr xs => simp at hok
          | obj fields =>
            simp only [Except.ok.injEq] at hok
            exact ⟨fields, hok.symm⟩

/-- C2: a successful non-test dispatch commits all receipts, the SENT
status and the sent date as one atomic unit: every committed batch of a
sealing run is the full seal batch, so the only observable states are
the untouched initial state and the final state holding every receipt
together with status SENT and the sent date -- no partial combination
is observable. -/
theorem seal_atomic_observable (beh : Behavior) (cid : Nat)
    (contacts : List Contact) (maxChecks now : Nat) (db : Db) :
    (∀ ops, tryDispatch beh false cid contacts maxChecks now = .ok ops →
      ∃ fields, ops = seal_ops cid contacts fields now) ∧
    (∀ fields,
      tryDispatch beh false cid contacts maxChecks now =
        .ok (seal_ops cid contacts fields now) →
      observableStates db (run beh false cid contacts maxChecks now).batches =
        [db, { status := .SENT, sent_date := some now,
               receipts := db.receipts ++ seal_receipts cid contacts fields }] ∧
      (seal_receipts cid contacts fields).length = contacts.length) := by
  constructor
  · intro ops hok
    exact tryDispatch_ok_seal beh cid contacts maxChecks now ops hok
  · intro fields hok
    have hrun : run beh false cid contacts maxChecks now =
        ⟨[seal_ops cid contacts fields now], false⟩ := by
      simp [run, hok]
    refine ⟨?_, by simp [seal_receipts]⟩
    rw [hrun]
    simp only [observableStates, applyBatch_seal]

/-- A behaviour that acknowledges the submission and completes after two
queued answers, with the concrete validation-error map. -/
def exBehOk : Behavior := ⟨.ok (some 202) exAck, exPoll⟩

/-- C2 witness: the concrete successful dispatch exposes exactly the
initial state and the fully sealed state. -/
theorem seal_atomic_observable_witness :
    observableStates exDb (run exBehOk false 7 exContacts 10 99).batches =
      [exDb, { status := .SENT, sent_date := some 99,
               receipts := exDb.receipts ++ seal_receipts 7 exContacts exVE }] ∧
    (seal_receipts 7 exContacts exVE).length = exContacts.length :=
  (seal_atomic_observable exBehOk 7 exContacts 10 99 exDb).2 exVE rfl

/-- A test-send behaviour that fails with an unclassified error during
submission (for instance an undecodable provider response). -/
def exBehBad : Behavior := ⟨.unclassified, fun _ => ParseResult.nothing⟩

/-- A previously sent campaign (status SENT with a sent date). -/
def exDbSent : Db := ⟨.SENT, some 5, []⟩

/-- A behaviour whose submission raises the classified quota-exceeded
error. -/
def exBeh429 : Behavior :=
  ⟨parse_response (some str429), fun _ => ParseResult.nothing⟩

/-- C6 counterexample: a test-mode dispatch that fails with an
unclassified error does mutate the campaign status -- the bare except
handler of `run` saves UNSENT without consulting `test_send`, flipping
this previously SENT campaign to UNSENT. -/
theorem test_send_generic_failure_mutates_status :
    exDbSent.status = .SENT ∧
    (runDb exBehBad true 7 exContacts 10 99 exDbSent).status = .UNSENT :=
  ⟨rfl, rfl⟩

/-- C6 amended: a successful test-mode dispatch returns right after
submission with no database writes; a classified test-mode failure
reports the error and leaves the status untouched; but an unclassified
test-mode failure reaches the bare except handler, which saves UNSENT
even though the dispatch was a test; and a test-mode run never consults
the polling behaviour. -/
theorem test_send_status_mutation (beh : Behavior) (cid : Nat)
    (contacts : List Contact) (maxChecks now : Nat) (db : Db) :
    (∀ c0 r0, beh.send_bulk = .ok c0 r0 →
      runDb beh true cid contacts maxChecks now db = db ∧
      (run beh true cid contacts maxChecks now).errorReported = false) ∧
    (∀ c m, beh.send_bulk = .classified c m →
      runDb beh true cid contacts maxChecks now db = db ∧
      (run beh true cid contacts maxChecks now).errorReported = true) ∧
    ((beh.send_bulk = .unclassified ∨ beh.send_bulk = .nothing) →
      runDb beh true cid contacts maxChecks now db =
        { db with status := .UNSENT } ∧
      (run beh true cid contacts maxChecks now).errorReported = true) ∧
    (∀ (p1 p2 : Nat → ParseResult) (sb : ParseResult),
      runDb ⟨sb, p1⟩ true cid contacts maxChecks now db =
        runDb ⟨sb, p2⟩ true cid contacts maxChecks now db) := by
  refine ⟨?_, ?_, ?_, ?_⟩
  · intro c0 r0 h
    have htd : tryDispatch beh true cid contacts maxChecks now = .ok [] := by
      simp [tryDispatch, h]
    exact ⟨by simp [runDb, run, htd, applyBatch], by simp [run, htd]⟩
  · intro c m h
    have htd : tryDispatch beh true cid contacts maxChecks now =
        .error (.ms c m) := by
      simp [tryDispatch, h]
    exact ⟨by simp [runDb, run, htd], by simp [run, htd]⟩
  · intro h
    have htd : tryDispatch beh true cid contacts maxChecks now =
        .error .generic := by
      rcases h with h | h <;> simp [tryDispatch, h]
    exact ⟨by simp [runDb, run, htd, applyBatch, applyOp], by simp [run, htd]⟩
  · intro p1 p2 sb
    cases sb <;> simp [runDb, run, tryDispatch]

/-- C6 witness (amended theorem): a classified quota failure during a
test send reports the error and leaves the previously sent campaign
unchanged. -/
theorem test_send_status_mutation_witness :
    runDb exBeh429 true 7 exContacts 10 99 exDbSent = exDbSent ∧
    (run exBeh429 true 7 exContacts 10 99).errorReported = true :=
  (test_send_status_mutation exBeh429 7 exContacts 10 99 exDbSent).2.1
    (.inl 429) ERROR_MESSAGE_DAILY_API_QUOTA_LIMIT_REACHED rfl

theorem unsuccessful_contacts_eq_filterMap (contacts : List Contact)
    (ve : List (String × Json)) :
    unsuccessful_contacts contacts ve =
      ve.filterMap (keyContribution contacts) := by
  suffices h : ∀ (l : List (String × Json)) (acc : List Nat),
      l.foldl (fun acc kv =>
        match parseKeyIndex kv.1 with
        | none => acc
        | some i =>
          match contactAt contacts i with
          | none => acc
          | some c => acc ++ [c.id]) acc
      = acc ++ l.filterMap (keyContribution contacts) by
    simpa [unsuccessful_contacts] using h ve []
  intro l
  induction l with
  | nil => intro acc; simp
  | cons kv t ih =>
    intro acc
    simp only [List.foldl_cons, List.filterMap_cons]
    cases hp : parseKeyIndex kv.1 with
    | none => simp [keyContribution, hp, ih]
    | some i =>
      cases hc : contactAt contacts i with
      | none => simp [keyContribution, hp, hc, ih]
      | some c => simp [keyContribution, hp, hc, ih]

theorem mem_unsuccessful_contacts (contacts : List Contact)
    (ve : List (String × Json)) (n : Nat) :
    n ∈ unsuccessful_contacts contacts ve ↔
      ∃ i, resolvesTo contacts ve i ∧
        ∃ c, contacts.get? i = some c ∧ c.id = n := by
  rw [unsuccessful_contacts_eq_filterMap, List.mem_filterMap]
  constructor
  · rintro ⟨kv, hkv, hg⟩
    unfold keyContribution at hg
    rw [Option.bind_eq_some] at hg
    obtain ⟨i, hpi, hmap⟩ := hg
    rw [Option.map_eq_some'] at hmap
    obtain ⟨c, hc, hcid⟩ := hmap
    unfold contactAt at hc
    by_cases h0 : (0 : Int) ≤ i
    · rw [if_pos h0] at hc
      obtain ⟨hlt, _⟩ := List.get?_eq_some.mp hc
      exact ⟨i.toNat, ⟨hlt, kv, hkv, by rwa [Int.toNat_of_nonneg h0]⟩,
        c, hc, hcid⟩
    · rw [if_neg h0] at hc
      exact absurd hc (by simp)
  · rintro ⟨i, ⟨hlt, kv, hkv, hpi⟩, c, hc, hcid⟩
    refine ⟨kv, hkv, ?_⟩
    unfold keyContribution
    rw [hpi, Option.bind_eq_some]
    refine ⟨(i : Int), rfl, ?_⟩
    unfold contactAt
    rw [if_pos (Int.ofNat_nonneg i), Int.toNat_natCast, hc]
    simp [hcid]

theorem seal_receipts_success_iff (cid : Nat) (contacts : List Contact)
    (ve : List (String × Json))
    (hn : (contacts.map Contact.id).Nodup) (i : Nat) (r : Receipt) (c : Contact)
    (hr : (seal_receipts cid contacts ve).get? i = some r)
    (hc : contacts.get? i = some c) :
    r.campaign_id = cid ∧ r.contact_id = c.id ∧
      (r.success = false ↔ resolvesTo contacts ve i) := by
  unfold seal_receipts at hr
  rw [List.get?_map, hc, Option.map_some'] at hr
  obtain rfl : _ = r := Option.some.inj hr
  refine ⟨rfl, rfl, ?_⟩
  have hmem : (if c.id ∈ unsuccessful_contacts contacts ve then false else true)
      = false ↔ c.id ∈ unsuccessful_contacts contacts ve := by
    by_cases hm : c.id ∈ unsuccessful_contacts contacts ve <;> simp [hm]
  rw [hmem, mem_unsuccessful_contacts]
  constructor
  · rintro ⟨j, hres, c2, hc2, hid⟩
    have hij : i = j := by
      have hlti : i < contacts.length := (List.get?_eq_some.mp hc).1
      have hmap : (contacts.map Contact.id).get? i =
          (contacts.map Contact.id).get? j := by
        rw [List.get?_map, List.get?_map, hc, hc2]
        simp [hid]
      exact List.get?_inj (by simpa using hlti) hn hmap
    rwa [hij]
  · intro hres
    exact ⟨i, hres, c, hc, rfl⟩

/-- C1: sealing produces exactly one receipt per recipient, in recipient
order; the receipt of recipient `i` carries the campaign id and the
recipient's contact id, and is unsuccessful exactly when some
validation-error key resolves to the valid index `i`; the seal batch
sets the campaign status to SENT with the sent date.  In the concrete
four-recipient scenario with keys `message.1` and `message.3`,
recipients 0 and 2 get successful receipts, recipients 1 and 3
unsuccessful ones, and the status becomes SENT. -/
theorem seal_one_receipt_per_recipient :
    (∀ (cid : Nat) (contacts : List Contact) (ve : List (String × Json))
       (now : Nat) (db : Db),
      (contacts.map Contact.id).Nodup →
      (seal_receipts cid contacts ve).length = contacts.length ∧
      (∀ i r c, (seal_receipts cid contacts ve).get? i = some r →
        contacts.get? i = some c →
        r.campaign_id = cid ∧ r.contact_id = c.id ∧
        (r.success = false ↔ resolvesTo contacts ve i)) ∧
      (applyBatch db (seal_ops cid contacts ve now)).status = .SENT ∧
      (applyBatch db (seal_ops cid contacts ve now)).sent_date = some now) ∧
    (seal_receipts 7 exContacts exVE =
      [⟨7, 10, true⟩, ⟨7, 11, false⟩, ⟨7, 12, true⟩, ⟨7, 13, false⟩] ∧
     (applyBatch exDb (seal_ops 7 exContacts exVE 99)).status = .SENT) := by
  constructor
  · intro cid contacts ve now db hn
    refine ⟨by simp [seal_receipts], ?_, ?_, ?_⟩
    · intro i r c hr hc
      exact seal_receipts_success_iff cid contacts ve hn i r c hr hc
    · rw [applyBatch_seal]
    · rw [applyBatch_seal]
  · exact ⟨by decide, by decide⟩

/-- C1 witness: the concrete scenario instantiates the universal part:
four receipts for four recipients, and recipient 1's receipt is
unsuccessful exactly because `message.1` resolves to index 1. -/
theorem seal_one_receipt_per_recipient_witness :
    (seal_receipts 7 exContacts exVE).length = exContacts.length ∧
    ((⟨7, 11, false⟩ : Receipt).success = false ↔
      resolvesTo exContacts exVE 1) :=
  ⟨(seal_one_receipt_per_recipient.1 7 exContacts exVE 99 exDb (by decide)).1,
   ((seal_one_receipt_per_recipient.1 7 exContacts exVE 99 exDb
      (by decide)).2.1 1 ⟨7, 11, false⟩ ⟨11, "b@example.com"⟩ rfl rfl).2.2⟩

/-- C9: a validation-error key that contributes nothing -- because its
positional index fails to parse or because the parsed index does not
resolve to a contact -- is skipped: removing it changes neither the
receipts nor the seal batch, and the per-key `try` of `seal_campaign`
makes the accumulation total, so sealing completes.  The second part
characterises the skipped keys as exactly those that fail to parse or
fail to index the recipient list. -/
theorem seal_bad_keys_skipped :
    (∀ (cid now : Nat) (contacts : List Contact)
       (ve1 ve2 : List (String × Json)) (kv : String × Json),
      keyContribution contacts kv = none →
      seal_receipts cid contacts (ve1 ++ kv :: ve2) =
        seal_receipts cid contacts (ve1 ++ ve2) ∧
      seal_ops cid contacts (ve1 ++ kv :: ve2) now =
        seal_ops cid contacts (ve1 ++ ve2) now) ∧
    (∀ (contacts : List Contact) (kv : String × Json),
      (parseKeyIndex kv.1 = none ∨
        (∃ i, parseKeyIndex kv.1 = some i ∧ contactAt contacts i = none)) ↔
      keyContribution contacts kv = none) := by
  constructor
  · intro cid now contacts ve1 ve2 kv hbad
    have huns : unsuccessful_contacts contacts (ve1 ++ kv :: ve2) =
        unsuccessful_contacts contacts (ve1 ++ ve2) := by
      rw [unsuccessful_contacts_eq_filterMap, unsuccessful_contacts_eq_filterMap,
        List.filterMap_append, List.filterMap_append, List.filterMap_cons, hbad]
    constructor
    · unfold seal_receipts
      rw [huns]
    · unfold seal_ops
      unfold seal_receipts
      rw [huns]
  · intro contacts kv
    unfold keyContribution
    cases hp : parseKeyIndex kv.1 with
    | none => simp
    | some i =>
      simp only [Option.some_bind, Option.map_eq_none']
      constructor
      · rintro (h | ⟨i2, hi2, hc⟩)
        · exact absurd h (by simp)
        · obtain rfl : i = i2 := Option.some.inj hi2
          exact hc
      · intro hc
        exact Or.inr ⟨i, rfl, hc⟩

/-- C9 witness: a key with no positional index is skipped: prepending it
to the scenario's validation-error map leaves the receipts unchanged. -/
theorem seal_bad_keys_skipped_witness :
    seal_receipts 7 exContacts (("garbage", Json.null) :: exVE) =
      seal_receipts 7 exContacts exVE :=
  (seal_bad_keys_skipped.1 7 99 exContacts [] exVE ("garbage", Json.null)
    rfl).1

theorem takeWhile_all_append {α : Type} {p : α → Bool} (l1 : List α) (x : α)
    (l2 : List α) (h1 : ∀ a ∈ l1, p a = true) (hx : p x = false) :
    (l1 ++ x :: l2).takeWhile p = l1 := by
  induction l1 with
  | nil => simp [List.takeWhile_cons, hx]
  | cons a t ih =>
    have ha : p a = true := h1 a (List.mem_cons_self a t)
    simp only [List.cons_append, List.takeWhile_cons_of_pos ha,
      List.cons.injEq, true_and]
    exact ih (fun b hb => h1 b (List.mem_cons_of_mem a hb))

theorem dropWhile_all_append {α : Type} {p : α → Bool} (l1 : List α) (x : α)
    (l2 : List α) (h1 : ∀ a ∈ l1, p a = true) (hx : p x = false) :
    (l1 ++ x :: l2).dropWhile p = x :: l2 := by
  induction l1 with
  | nil => simp [List.dropWhile_cons, hx]
  | cons a t ih =>
    have ha : p a = true := h1 a (List.mem_cons_self a t)
    simp only [List.cons_append, List.dropWhile_cons_of_pos ha]
    exact ih (fun b hb => h1 b (List.mem_cons_of_mem a hb))

theorem isJsonWs_of_digit (c : Char) (h : c.isDigit = true) :
    isJsonWs c = false := by
  cases hb : isJsonWs c with
  | false => rfl
  | true =>
    exfalso
    have hc : c = ' ' ∨ c = '\t' ∨ c = '\n' ∨ c = '\r' := by
      simpa [isJsonWs] using hb
    rcases hc with rfl | rfl | rfl | rfl <;> exact absurd h (by decide)

theorem skipWs_cons_digit (c : Char) (l : List Char) (h : c.isDigit = true) :
    skipWs (c :: l) = c :: l := by
  unfold skipWs
  rw [List.dropWhile_cons_of_neg (by simp [isJsonWs_of_digit c h])]

theorem skipWs_digits_space_ne_nil (t r : List Char)
    (ht : ∀ c ∈ t, c.isDigit = true) (hr : skipWs r ≠ []) :
    skipWs (t ++ ' ' :: r) ≠ [] := by
  cases t with
  | nil =>
    unfold skipWs
    rw [List.nil_append, List.dropWhile_cons_of_pos (by decide)]
    exact hr
  | cons c t2 =>
    rw [List.cons_append, skipWs_cons_digit c (t2 ++ ' ' :: r)
      (ht c (List.mem_cons_self c t2))]
    simp

theorem jsonLoads_some_skipWs_ne_nil (s : String) (p : Json)
    (h : jsonLoads s = some p) : skipWs s.data ≠ [] := by
  intro hws
  unfold jsonLoads jsonLoadsCore at h
  simp [parseValue, hws] at h

theorem parseValue_digit_head (fuel : Nat) (d : Char) (l : List Char)
    (hd : d.isDigit = true) :
    parseValue (fuel + 1) (d :: l) =
      match scanNumber (d :: l) with
      | some (lit, r) => some (.num (String.mk lit), r)
      | none => none := by
  conv_lhs => rw [parseValue]
  rw [skipWs_cons_digit d l hd]
  dsimp only
  rw [if_neg (by rintro rfl; exact absurd hd (by decide)),
    if_neg (by rintro rfl; exact absurd hd (by decide)),
    if_neg (by rintro rfl; exact absurd hd (by decide)),
    if_neg (by rintro rfl; exact absurd hd (by decide)),
    if_neg (by rintro rfl; exact absurd hd (by decide)),
    if_neg (by rintro rfl; exact absurd hd (by decide)),
    if_neg (by rintro rfl; exact absurd hd (by decide)),
    if_neg (by rintro rfl; exact absurd hd (by decide)),
    if_neg (by rintro ⟨rfl, -⟩; exact absurd hd (by decide)),
    if_pos (Or.inr hd)]

theorem scanNumber_digit_head (d : Char) (l : List Char)
    (hd : d.isDigit = true) :
    scanNumber (d :: l) = scanNumCore (d :: l) := by
  unfold scanNumber
  rw [if_neg (by
    simp only [List.head?_cons]
    intro h
    obtain rfl := Option.some.inj h
    exact absurd hd (by decide))]

theorem scanFrac_no_dot (cs : List Char)
    (h : ¬ cs.head? = some '.') : scanFrac cs = some ([], cs) := by
  unfold scanFrac
  rw [if_neg h]

theorem scanExp_digits_space (t r : List Char)
    (ht : ∀ c ∈ t, c.isDigit = true) :
    scanExp (t ++ ' ' :: r) = some ([], t ++ ' ' :: r) := by
  cases t with
  | nil =>
    rw [List.nil_append]
    unfold scanExp
    dsimp only
    rw [if_neg (by decide)]
  | cons c t2 =>
    rw [List.cons_append]
    unfold scanExp
    dsimp only
    rw [if_neg (by
      have hc : c.isDigit = true := ht c (List.mem_cons_self c t2)
      rintro (rfl | rfl) <;> exact absurd hc (by decide))]

theorem head_digits_space_no_dot (t r : List Char)
    (ht : ∀ c ∈ t, c.isDigit = true) :
    ¬ (t ++ ' ' :: r).head? = some '.' := by
  cases t with
  | nil => simp
  | cons c t2 =>
    have hc : c.isDigit = true := ht c (List.mem_cons_self c t2)
    simp only [List.cons_append, List.head?_cons, Option.some.injEq]
    rintro rfl
    exact absurd hc (by decide)

theorem scanNumCore_digits_space (d : Char) (t r : List Char)
    (hd : d.isDigit = true) (ht : ∀ c ∈ t, c.isDigit = true) :
    ∃ lit t2, scanNumCore (d :: (t ++ ' ' :: r)) = some (lit, t2 ++ ' ' :: r) ∧
      ∀ c ∈ t2, c.isDigit = true := by
  unfold scanNumCore scanIntPart
  dsimp only
  by_cases h0 : d = '0'
  · rw [if_pos h0]
    dsimp only
    rw [scanFrac_no_dot _ (head_digits_space_no_dot t r ht)]
    dsimp only
    rw [scanExp_digits_space t r ht]
    exact ⟨_, t, rfl, ht⟩
  · rw [if_neg h0, if_pos hd]
    rw [takeWhile_all_append t ' ' r ht (by decide),
      dropWhile_all_append t ' ' r ht (by decide)]
    dsimp only
    rw [scanFrac_no_dot (' ' :: r) (by simp)]
    dsimp only
    rw [show (' ' :: r) = ([] ++ ' ' :: r) from rfl,
      scanExp_digits_space [] r (by simp)]
    exact ⟨_, [], rfl, by simp⟩

theorem jsonLoadsCore_digits_space (d : Char) (t r : List Char)
    (hd : d.isDigit = true) (ht : ∀ c ∈ t, c.isDigit = true)
    (hr : skipWs r ≠ []) :
    jsonLoadsCore (d :: (t ++ ' ' :: r)) = none := by
  obtain ⟨lit, t2, hscan, ht2⟩ := scanNumCore_digits_space d t r hd ht
  unfold jsonLoadsCore
  rw [parseValue_digit_head _ d _ hd, scanNumber_digit_head d _ hd, hscan]
  dsimp only
  rw [if_neg (skipWs_digits_space_ne_nil t2 r ht2 hr)]

theorem regexCodePayload_concat (ds s : String) (hne : ds.data ≠ [])
    (hdig : ∀ c ∈ ds.data, c.isDigit = true)
    (hhead : ∀ c, s.data.head? = some c → isPySpace c = false) :
    regexCodePayload (ds ++ " " ++ s) = some (ds, s) := by
  have hdata : (ds ++ " " ++ s).data = ds.data ++ ' ' :: s.data := by
    rw [String.data_append, String.data_append, List.append_assoc]
    rfl
  unfold regexCodePayload
  rw [hdata, takeWhile_all_append ds.data ' ' s.data hdig (by decide),
    dropWhile_all_append ds.data ' ' s.data hdig (by decide),
    if_neg hne, List.takeWhile_cons_of_pos (by decide),
    if_neg (by simp), List.dropWhile_cons_of_pos (by decide)]
  have hdrop : s.data.dropWhile isPySpace = s.data := by
    cases hsd : s.data with
    | nil => rfl
    | cons c l =>
      rw [List.dropWhile_cons_of_neg
        (by simp [hhead c (by rw [hsd]; rfl)])]
  rw [hdrop]

/-- C7 counterexample: on the raw response `oops` both decodings fail,
and the parser outcome is the re-raised unclassified decode exception,
not a classified error carrying the raw text. -/
theorem malformed_response_not_classified :
    parse_response (some "oops") = ParseResult.unclassified ∧
    ¬ ∃ c m, parse_response (some "oops") = ParseResult.classified c m :=
  ⟨rfl, by
    rintro ⟨c, m, h⟩
    rw [show parse_response (some "oops") = ParseResult.unclassified from rfl]
      at h
    cases h⟩

/-- C7 amended: for every nonempty raw response on which both decodings
fail (not decodable as a bare payload, and not as a leading integer,
whitespace and a decodable payload), the parser fails by re-raising the
underlying decode exception: an unclassified error with no machine code,
handled by the orchestrator's generic fallback; the raw text is written
to the log rather than attached to the raised error. -/
theorem malformed_response_unclassified (s : String) (hne : s ≠ "")
    (hbare : jsonLoads s = none)
    (hsecond : regexCodePayload s = none ∨
      ∃ ds ps, regexCodePayload s = some (ds, ps) ∧ jsonLoads ps = none) :
    parse_response (some s) = .unclassified := by
  unfold parse_response
  dsimp only
  rw [if_neg hne, hbare]
  rcases hsecond with h | ⟨ds, ps, h, hps⟩
  · rw [h]
  · rw [h]
    dsimp only
    rw [hps]

/-- C7 witness for the amended claim: the concrete response `oops` is
empty-checked, fails both decodings and yields the unclassified
re-raise. -/
theorem malformed_response_unclassified_witness :
    parse_response (some "oops") = ParseResult.unclassified :=
  malformed_response_unclassified "oops" (by decide) rfl (Or.inl rfl)

/-- C8: parser round-trip.  An absent or empty response returns the
`None` sentinel.  A bare decodable payload parses to `(None, payload)`.
A nonempty digit string, one space and a decodable payload (written
with no leading whitespace, as payloads are) parse to the pair of the
numeric code and the payload, provided the code is not one of the fatal
codes 403 and 429. -/
theorem parse_response_round_trip :
    (parse_response none = .nothing ∧ parse_response (some "") = .nothing) ∧
    (∀ (s : String) (p : Json), jsonLoads s = some p →
      parse_response (some s) = .ok none p) ∧
    (∀ (ds s : String) (p : Json),
      ds.data ≠ [] → (∀ c ∈ ds.data, c.isDigit = true) →
      (∀ c, s.data.head? = some c → isPySpace c = false) →
      jsonLoads s = some p →
      (digitsToNat ds.data : Int) ≠ ERROR_CODE_UNAUTHORIZED →
      (digitsToNat ds.data : Int) ≠ ERROR_CODE_DAILY_API_QUOTA_LIMIT_REACHED →
      parse_response (some (ds ++ " " ++ s)) =
        .ok (some (digitsToNat ds.data)) p) := by
  refine ⟨⟨rfl, rfl⟩, ?_, ?_⟩
  · intro s p h
    have hne : ¬ s = "" := by
      rintro rfl
      rw [show jsonLoads "" = none from rfl] at h
      cases h
    unfold parse_response
    dsimp only
    rw [if_neg hne, h]
  · intro ds s p hne hdig hhead hload h403 h429
    obtain ⟨d, t, hds⟩ : ∃ d t, ds.data = d :: t := by
      cases hc : ds.data with
      | nil => exact absurd hc hne
      | cons d t => exact ⟨d, t, rfl⟩
    have hd1 : d.isDigit = true := hdig d (by rw [hds]; exact List.mem_cons_self d t)
    have ht1 : ∀ c ∈ t, c.isDigit = true :=
      fun c hc => hdig c (by rw [hds]; exact List.mem_cons_of_mem d hc)
    have hner : skipWs s.data ≠ [] := jsonLoads_some_skipWs_ne_nil s p hload
    have hdata : (ds ++ " " ++ s).data = ds.data ++ ' ' :: s.data := by
      rw [String.data_append, String.data_append, List.append_assoc]
      rfl
    have hbare : jsonLoads (ds ++ " " ++ s) = none := by
      unfold jsonLoads
      rw [hdata, hds]
      exact jsonLoadsCore_digits_space d t s.data hd1 ht1 hner
    have hstrne : ¬ (ds ++ " " ++ s) = "" := by
      intro hh
      have hd2 : (ds ++ " " ++ s).data = ([] : List Char) := by rw [hh]
      rw [hdata, hds] at hd2
      cases hd2
    unfold parse_response
    dsimp only
    rw [if_neg hstrne, hbare,
      regexCodePayload_concat ds s (by rw [hds]; simp) hdig hhead]
    dsimp only
    rw [hload]
    dsimp only
    rw [if_neg h403, if_neg h429]

/-- C8 witness: the concrete response `202 \x7b"a":1\x7d` parses to the
pair (202, payload), and the bare payload alone parses to (None,
payload). -/
theorem parse_response_round_trip_witness :
    parse_response (some ("202" ++ " " ++ "\x7b\"a\":1\x7d")) =
      .ok (some (digitsToNat "202".data)) (Json.obj [("a", Json.num "1")]) ∧
    parse_response (some "\x7b\"a\":1\x7d") =
      .ok none (Json.obj [("a", Json.num "1")]) :=
  ⟨parse_response_round_trip.2.2 "202" "\x7b\"a\":1\x7d"
      (Json.obj [("a", Json.num "1")]) (by decide) (by decide)
      (by
        intro c hc
        rw [show ("\x7b\"a\":1\x7d").data.head? = some lbraceC from rfl] at hc
        obtain rfl := Option.some.inj hc
        rfl)
      rfl (by decide) (by decide),
   parse_response_round_trip.2.1 "\x7b\"a\":1\x7d"
     (Json.obj [("a", Json.num "1")]) rfl⟩
